import Mathlib

/-!
Shallow embedding of `src/standup/auth0/middleware.py`: the id-token
validation middleware (`renew_id_token`, `ValidateIdToken`,
`ValidateIdTokenUsingCache`).

Modelling conventions:
* Timestamps are natural numbers (seconds); `timezone.now()` is an explicit
  `now : Nat` parameter.
* The `IdToken` Django table is an association list keyed by the user id,
  with at most one record per user (matching the model's invariant).
* The Django cache is a list of `(key, value, expires-at)` entries;
  `cache.set key v timeout` stores an entry expiring at `now + timeout` and
  `cache.get` returns the stored value only while `now < expires-at`
  (Django returns the default, i.e. `None`, once the TTL has elapsed).
* The network call performed by `requests.post` inside `renew_id_token` is
  represented by its outcome `NetOutcome`: either a delivered response body
  (which may or may not parse as JSON, and whose JSON may or may not carry
  an `id_token` field), or a raised `requests` exception
  (`ConnectTimeout`, `ReadTimeout`, or a plain `ConnectionError` for a
  connection failure that is not a timeout).
* `process_request` returns the outcome (proceed / redirect / uncaught
  exception), the updated store+cache state, and the observable effects
  (flash messages, whether `logout` was called, debug-log lines).
-/

namespace Standup

/-- `app_settings` fields consumed by the middleware.
`AUTH0_CALLBACK_PATH` stands for `urlparse(AUTH0_CALLBACK_URL).path`. -/
structure Auth0Settings where
  AUTH0_ID_TOKEN_EXPIRY : Nat
  AUTH0_ID_TOKEN_DOMAINS : List String
  AUTH0_SIGNIN_VIEW : String
  AUTH0_CALLBACK_PATH : String
deriving DecidableEq, Repr

/-- One row of the `IdToken` model: the opaque token value and its
expiration timestamp. The owning user is the association-list key. -/
structure IdToken where
  id_token : String
  expire : Nat
deriving DecidableEq, Repr

/-- `request.user`. -/
structure User where
  id : String
  is_active : Bool
  email : String
deriving DecidableEq, Repr

/-- The parts of the Django request the middleware reads. -/
structure Request where
  method : String
  is_ajax : Bool
  path : String
  user : User
deriving DecidableEq, Repr

/-- Mutable state the middleware touches: the `IdToken` table and the
shared Django cache (entries are `(key, stored value, expires-at)`). -/
structure MwState where
  tokens : List (String × IdToken)
  cache : List (String × Bool × Nat)
deriving DecidableEq, Repr

/-- `IdToken.objects.get(user=...)`: `none` models `IdToken.DoesNotExist`. -/
def get_id_token (tokens : List (String × IdToken)) (uid : String) : Option IdToken :=
  tokens.lookup uid

/-- `token.save()` after assigning both fields: replaces the user's record
wholesale (the single atomic write). -/
def save_id_token (tokens : List (String × IdToken)) (uid : String) (tok : IdToken) :
    List (String × IdToken) :=
  (uid, tok) :: tokens.filter (fun p => ¬ (p.1 = uid))

/-- `cache.get key` at time `now`: the stored value while the entry is
live, `None` (here `none`) once absent or past its expiry. -/
def cache_get (c : List (String × Bool × Nat)) (now : Nat) (key : String) : Option Bool :=
  match c with
  | [] => none
  | (k, v, exp) :: rest =>
    if k = key then (if now < exp then some v else none) else cache_get rest now key

/-- `cache.set key v timeout` at time `now`: the entry expires at
`now + timeout`. -/
def cache_set (c : List (String × Bool × Nat)) (key : String) (v : Bool)
    (expiresAt : Nat) : List (String × Bool × Nat) :=
  (key, v, expiresAt) :: c.filter (fun e => ¬ (e.1 = key))

/-- The cache key `'auth0:renew_id_token:%s' % request.user.id`. -/
def cache_key (uid : String) : String := "auth0:renew_id_token:" ++ uid

/-- Body of the HTTP response to the delegation POST, as far as
`renew_id_token` inspects it: either it fails to parse as JSON
(`simplejson.JSONDecodeError`), or it parses and `result.get('id_token')`
yields an optional token value. -/
inductive RespBody where
  | notJson
  | json (id_token : Option String)
deriving DecidableEq, Repr

/-- A `requests` exception raised by `requests.post`: a connect timeout, a
read timeout, or a plain `requests.exceptions.ConnectionError` (a
connection failure — refused connection, DNS error — that is not a
timeout). -/
inductive NetError where
  | connectTimeout
  | readTimeout
  | connectionError
deriving DecidableEq, Repr

/-- Outcome of the network call inside `renew_id_token`: a delivered
response body, or a raised exception. -/
inductive NetOutcome where
  | ok (body : RespBody)
  | exn (e : NetError)
deriving DecidableEq, Repr

/-- `renew_id_token`: performs the POST (whose outcome is the argument).
Only `response.json()` is inside the `try`, so a raised `requests`
exception propagates (`Except.error`); an unparseable body returns `None`;
otherwise the result is `result.get('id_token')`. -/
def renew_id_token (net : NetOutcome) : Except NetError (Option String) :=
  match net with
  | .exn e => .error e
  | .ok .notJson => .ok none
  | .ok (.json t) => .ok t

/-- Which middleware class is in use: `ValidateIdToken` (direct) or
`ValidateIdTokenUsingCache` (cached). -/
inductive Strategy where
  | direct
  | cached
deriving DecidableEq, Repr

/-- Python `str.lower()`, character-wise (ASCII range, like
`Char.toLower`). -/
def pyLower (s : String) : String := String.mk (s.toList.map Char.toLower)

/-- `lst.split('@', 1)[1]` on a character list: everything after the first
`'@'`, or `none` when there is no `'@'` (in which case the Python
subscript `[1]` raises `IndexError`). -/
def afterFirstAt : List Char → Option (List Char)
  | [] => none
  | c :: rest => if c = '@' then some rest else afterFirstAt rest

/-- `request.user.email.lower().split('@', 1)[1]`: the email's domain
part, `none` when the email has no `'@'`. -/
def email_domain (email : String) : Option String :=
  (afterFirstAt (pyLower email).toList).map (fun cs => String.mk cs)

/-- `ValidateIdToken.exception_paths`. -/
def exception_paths (s : Auth0Settings) : List String := [s.AUTH0_CALLBACK_PATH]

/-- `is_expired`, per strategy.
Direct (`ValidateIdToken.is_expired`): no record means expired, otherwise
`bool(token.expire < timezone.now())`.
Cached (`ValidateIdTokenUsingCache.is_expired`):
`bool(cache.get(cache_key))` — `bool(None)` is `False`. -/
def is_expired (strat : Strategy) (st : MwState) (now : Nat) (req : Request) : Bool :=
  match strat with
  | .direct =>
    match get_id_token st.tokens req.user.id with
    | none => true
    | some token => decide (token.expire < now)
  | .cached => (cache_get st.cache now (cache_key req.user.id)).getD false

/-- `update_expiration`, per strategy. Direct: a no-op. Cached:
`cache.set(cache_key, True, AUTH0_ID_TOKEN_EXPIRY)`. -/
def update_expiration (strat : Strategy) (s : Auth0Settings) (st : MwState) (now : Nat)
    (req : Request) : MwState :=
  match strat with
  | .direct => st
  | .cached =>
    { st with
        cache := cache_set st.cache (cache_key req.user.id) true
                   (now + s.AUTH0_ID_TOKEN_EXPIRY) }

/-- The initial eligibility conjunction of `process_request`. -/
def eligible (s : Auth0Settings) (req : Request) : Bool :=
  (!(req.method == "POST")) && (!req.is_ajax) && req.user.is_active &&
    (!(req.user.email == "")) && (!((exception_paths s).contains req.path))

/-- Flash messages, whether `logout(request)` ran, and debug-log lines
emitted while handling one request. -/
structure Effects where
  messages : List String
  logged_out : Bool
  logs : List String
deriving DecidableEq, Repr

/-- No observable effect. -/
def no_effects : Effects := ⟨[], false, []⟩

/-- How `process_request` ends: a normal return (`none` lets the request
proceed, `some view` is `HttpResponseRedirect(reverse(view))`), an
`IndexError` from the domain extraction, or an uncaught `requests`
exception from `renew_id_token`. -/
inductive Outcome where
  | normal (redirect : Option String)
  | indexError
  | netError (e : NetError)
deriving DecidableEq, Repr

/-- Result of `process_request`: outcome, final state, effects. -/
structure PRResult where
  outcome : Outcome
  state : MwState
  effects : Effects
deriving DecidableEq, Repr

/-- The wrong-provider flash message (missing `IdToken` row). -/
def wrong_provider_message : String :=
  "You can\x27t log in with that email address using the provider you used. Please log in with the Mozilla LDAP provider."

/-- The temporary-network-problem flash message (renewal timed out). -/
def network_problem_message : String :=
  "Unable to validate your authentication with Auth0. This can happen when there is temporary network problem. Please sign in again."

/-- The expired-session flash message (renewal rejected / no new token). -/
def expired_session_message : String :=
  "Unable to validate your authentication with Auth0. This is most likely due to an expired authentication session. Please sign in again."

/-- `logger.debug('ValidateIdToken: token renewed for %s' % request.user)`. -/
def renewed_log (uid : String) : String := "ValidateIdToken: token renewed for " ++ uid

/-- `process_request`, faithful to the source's control flow. `net` is the
outcome the network would deliver if the renewal POST is made. -/
def process_request (strat : Strategy) (s : Auth0Settings) (st : MwState) (now : Nat)
    (req : Request) (net : NetOutcome) : PRResult :=
  if eligible s req then
    match email_domain req.user.email with
    | none => ⟨.indexError, st, no_effects⟩
    | some domain =>
      if s.AUTH0_ID_TOKEN_DOMAINS.contains domain then
        if is_expired strat st now req then
          match get_id_token st.tokens req.user.id with
          | none =>
            ⟨.normal (some s.AUTH0_SIGNIN_VIEW), st, ⟨[wrong_provider_message], true, []⟩⟩
          | some _token =>
            match renew_id_token net with
            | .error .connectTimeout =>
              ⟨.normal (some s.AUTH0_SIGNIN_VIEW), st, ⟨[network_problem_message], true, []⟩⟩
            | .error .readTimeout =>
              ⟨.normal (some s.AUTH0_SIGNIN_VIEW), st, ⟨[network_problem_message], true, []⟩⟩
            | .error e => ⟨.netError e, st, no_effects⟩
            | .ok new_id_token =>
              match new_id_token with
              | some t =>
                if t == "" then
                  ⟨.normal (some s.AUTH0_SIGNIN_VIEW), st,
                    ⟨[expired_session_message], true, []⟩⟩
                else
                  let token' : IdToken := ⟨t, now + s.AUTH0_ID_TOKEN_EXPIRY⟩
                  let st' : MwState := { st with tokens := save_id_token st.tokens req.user.id token' }
                  let st'' := update_expiration strat s st' now req
                  ⟨.normal none, st'', ⟨[], false, [renewed_log req.user.id]⟩⟩
              | none =>
                ⟨.normal (some s.AUTH0_SIGNIN_VIEW), st,
                  ⟨[expired_session_message], true, []⟩⟩
        else ⟨.normal none, st, no_effects⟩
      else ⟨.normal none, st, no_effects⟩
  else ⟨.normal none, st, no_effects⟩

/-- `Bool` substring matcher: does `pat` occur (contiguously) in `s`? Used
to state that a flash message mentions a given phrase. -/
def startsWithB : List Char → List Char → Bool
  | [], _ => true
  | _ :: _, [] => false
  | p :: ps, c :: cs => (p == c) && startsWithB ps cs

/-- See `startsWithB`. -/
def containsSeqB (pat : List Char) : List Char → Bool
  | [] => startsWithB pat []
  | c :: rest => startsWithB pat (c :: rest) || containsSeqB pat rest

/-! Shared concrete fixtures used to evaluate the model. -/

/-- Example settings: 900-second renewal interval, one allow-listed
domain. -/
def exampleSettings : Auth0Settings :=
  ⟨900, ["example.com"], "users.loginform", "/auth/callback"⟩

/-- Example active user on the allow-listed domain. -/
def exampleUser : User := ⟨"1", true, "alice@example.com"⟩

/-- Example eligible GET request. -/
def exampleReq : Request := ⟨"GET", false, "/home", exampleUser⟩

/-! Helper lemmas. -/

/-- `Char.toLower` maps only `'@'` to `'@'`. -/
theorem char_toLower_eq_at {c : Char} (h : Char.toLower c = '@') : c = '@' := by
  unfold Char.toLower at h
  by_cases hb : c.toNat ≥ 65 ∧ c.toNat ≤ 90
  · rw [if_pos hb] at h
    have key : ∀ n, n < 91 → 65 ≤ n → Char.ofNat (n + 32) ≠ '@' := by decide
    exact absurd h (key c.toNat (by omega) hb.1)
  · rwa [if_neg hb] at h

/-- If no character of `l` is `'@'`, the split-after-`'@'` finds
nothing. -/
theorem afterFirstAt_eq_none {l : List Char} (h : ∀ c ∈ l, c ≠ '@') :
    afterFirstAt l = none := by
  induction l with
  | nil => rfl
  | cons c rest ih =>
    have hc : ¬ (c = '@') := h c (List.mem_cons_self c rest)
    simp only [afterFirstAt, if_neg hc]
    exact ih (fun x hx => h x (List.mem_cons_of_mem c hx))

/-- An email with no `'@'` has no extractable domain. -/
theorem email_domain_eq_none {email : String} (h : '@' ∉ email.toList) :
    email_domain email = none := by
  unfold email_domain pyLower
  rw [afterFirstAt_eq_none]
  · rfl
  · intro c hc heq
    subst heq
    have hmem : '@' ∈ email.toList.map Char.toLower := hc
    obtain ⟨x, hx, hlx⟩ := List.mem_map.mp hmem
    exact h (char_toLower_eq_at hlx ▸ hx)

/-- Bridge from `∉` to the `Bool`-valued `List.contains`. -/
theorem contains_eq_false_of_not_mem {l : List String} {a : String} (h : a ∉ l) :
    l.contains a = false := by
  rcases Bool.eq_false_or_eq_true (l.contains a) with hc | hc
  · exact absurd (List.mem_of_elem_eq_true hc) h
  · exact hc

/-- Bridge from `∈` to the `Bool`-valued `List.contains`. -/
theorem contains_eq_true_of_mem {l : List String} {a : String} (h : a ∈ l) :
    l.contains a = true :=
  List.elem_eq_true_of_mem h

/-- Reading a user's record back right after `save_id_token` yields the
saved record. -/
theorem get_save_id_token (tokens : List (String × IdToken)) (uid : String) (tok : IdToken) :
    get_id_token (save_id_token tokens uid tok) uid = some tok := by
  simp [get_id_token, save_id_token, List.lookup]

/-! Claim theorems. -/

/-- Claim C1 (the code contradicts it): the claim says that immediately
after `record_renewed(u)` (`update_expiration`, which writes the cache
entry) the cached strategy's `is_expired(u)` is false, turning true once
the TTL (the configured renewal interval, here 900) elapses. The code's
`is_expired` returns `bool(cache.get(cache_key))`, which is `True`
exactly while the entry written by `update_expiration` is live:
evaluation shows `is_expired` is true immediately after the update and
false once the TTL has elapsed — the exact inversion of the claim (and
of the docstring contract `False if not expired`, inherited from
`ValidateIdToken.is_expired`). -/
theorem claim1_cached_roundtrip_inverted :
    is_expired .cached (update_expiration .cached exampleSettings ⟨[], []⟩ 0 exampleReq) 0
        exampleReq = true ∧
    is_expired .cached (update_expiration .cached exampleSettings ⟨[], []⟩ 0 exampleReq) 900
        exampleReq = false := by
  decide

/-- Claim C2 (the code contradicts it): the claim says the cached
strategy returns true when no live cache entry exists and false exactly
when one is present. Evaluation shows the code returns false on an empty
cache, false when the user's `IdToken` is stale but no cache entry
exists, and true when a live entry is present — inverted on every
point. -/
theorem claim2_cached_liveness_inverted :
    is_expired .cached ⟨[], []⟩ 0 exampleReq = false ∧
    is_expired .cached ⟨[("1", ⟨"tok", 40⟩)], []⟩ 50 exampleReq = false ∧
    is_expired .cached ⟨[], [(cache_key "1", true, 100)]⟩ 0 exampleReq = true := by
  decide

/-- Claim C5: the direct strategy's `is_expired` returns true when the
user has no `IdToken` record, true when the record's expiration is
strictly before `now`, and false when the expiration is in the
future. -/
theorem claim5_direct_is_expired_spec (st : MwState) (now : Nat) (req : Request) :
    (get_id_token st.tokens req.user.id = none → is_expired .direct st now req = true) ∧
    (∀ tok, get_id_token st.tokens req.user.id = some tok → tok.expire < now →
      is_expired .direct st now req = true) ∧
    (∀ tok, get_id_token st.tokens req.user.id = some tok → now < tok.expire →
      is_expired .direct st now req = false) := by
  refine ⟨fun h => ?_, fun tok h hlt => ?_, fun tok h hgt => ?_⟩
  · simp [is_expired, h]
  · simp [is_expired, h]
    exact hlt
  · simp [is_expired, h]
    omega

/-- Witness for C5 at concrete inputs: no record at time 5; a record
expiring at 3 seen at time 5; a record expiring at 9 seen at time 5. -/
theorem claim5_direct_is_expired_spec_witness :
    is_expired .direct ⟨[], []⟩ 5 exampleReq = true ∧
    is_expired .direct ⟨[("1", ⟨"tok", 3⟩)], []⟩ 5 exampleReq = true ∧
    is_expired .direct ⟨[("1", ⟨"tok", 9⟩)], []⟩ 5 exampleReq = false :=
  ⟨(claim5_direct_is_expired_spec ⟨[], []⟩ 5 exampleReq).1 (by decide),
   (claim5_direct_is_expired_spec ⟨[("1", ⟨"tok", 3⟩)], []⟩ 5 exampleReq).2.1
     ⟨"tok", 3⟩ (by decide) (by decide),
   (claim5_direct_is_expired_spec ⟨[("1", ⟨"tok", 9⟩)], []⟩ 5 exampleReq).2.2
     ⟨"tok", 9⟩ (by decide) (by decide)⟩

/-- Claim C8: a request to the configured callback path short-circuits
the eligibility gate, so `process_request` returns `None` with the state
untouched and no effects, for either strategy and regardless of token,
cache, or network state. -/
theorem claim8_callback_path_noop (strat : Strategy) (s : Auth0Settings) (st : MwState)
    (now : Nat) (req : Request) (net : NetOutcome)
    (h : req.path = s.AUTH0_CALLBACK_PATH) :
    process_request strat s st now req net = ⟨.normal none, st, no_effects⟩ := by
  have he : eligible s req = false := by
    simp [eligible, exception_paths, h]
  simp [process_request, he]

/-- Witness for C8: a request to the callback path of the example
settings, with an expired record in store, is a no-op. -/
theorem claim8_callback_path_noop_witness :
    process_request .direct exampleSettings ⟨[("1", ⟨"tok", 40⟩)], []⟩ 50
        ⟨"GET", false, "/auth/callback", exampleUser⟩ (.ok .notJson) =
      ⟨.normal none, ⟨[("1", ⟨"tok", 40⟩)], []⟩, no_effects⟩ :=
  claim8_callback_path_noop .direct exampleSettings ⟨[("1", ⟨"tok", 40⟩)], []⟩ 50
    ⟨"GET", false, "/auth/callback", exampleUser⟩ (.ok .notJson) (by decide)

/-- Claim C3, counterexample: the claim says every renewal call that
times out or fails to connect is handled (logout, network-problem
message, redirect) and that no failure of the renewal call propagates.
But `process_request` only catches `ConnectTimeout` and `ReadTimeout`; a
connection failure raising a plain `requests.exceptions.ConnectionError`
(refused connection, DNS failure) propagates uncaught, with no logout,
no message, and no redirect. -/
theorem claim3_connection_error_propagates :
    process_request .direct exampleSettings ⟨[("1", ⟨"tok", 40⟩)], []⟩ 50 exampleReq
        (.exn .connectionError) =
      ⟨.netError .connectionError, ⟨[("1", ⟨"tok", 40⟩)], []⟩, no_effects⟩ := by
  decide

/-- Claim C3 as amended: for every eligible request with an expired
token and an existing record, a renewal call that raises `ConnectTimeout`
or `ReadTimeout` is handled: the user is logged out, the flash message
mentioning a temporary network problem is surfaced, a redirect to the
sign-in view is returned, and the state is untouched. -/
theorem claim3_timeout_logout_redirect (strat : Strategy) (s : Auth0Settings) (st : MwState)
    (now : Nat) (req : Request) (net : NetOutcome) (d : String) (tok : IdToken)
    (hel : eligible s req = true)
    (hd : email_domain req.user.email = some d)
    (hmem : d ∈ s.AUTH0_ID_TOKEN_DOMAINS)
    (hexp : is_expired strat st now req = true)
    (htok : get_id_token st.tokens req.user.id = some tok)
    (hnet : net = .exn .connectTimeout ∨ net = .exn .readTimeout) :
    process_request strat s st now req net =
      ⟨.normal (some s.AUTH0_SIGNIN_VIEW), st, ⟨[network_problem_message], true, []⟩⟩ ∧
    containsSeqB "temporary network problem".toList network_problem_message.toList = true := by
  refine ⟨?_, by decide⟩
  rcases hnet with h | h <;> subst h <;>
    simp [process_request, hel, hd, hmem, hexp, htok, renew_id_token]

/-- Witness for the amended C3: the example user with a stale record
and a renewal that raises `ConnectTimeout`. -/
theorem claim3_timeout_logout_redirect_witness :
    process_request .direct exampleSettings ⟨[("1", ⟨"tok", 40⟩)], []⟩ 50 exampleReq
        (.exn .connectTimeout) =
      ⟨.normal (some exampleSettings.AUTH0_SIGNIN_VIEW), ⟨[("1", ⟨"tok", 40⟩)], []⟩,
        ⟨[network_problem_message], true, []⟩⟩ ∧
    containsSeqB "temporary network problem".toList network_problem_message.toList = true :=
  claim3_timeout_logout_redirect .direct exampleSettings ⟨[("1", ⟨"tok", 40⟩)], []⟩ 50
    exampleReq (.exn .connectTimeout) "example.com" ⟨"tok", 40⟩ (by decide) (by decide)
    (by decide) (by decide) (by decide) (Or.inl rfl)

/-- Claim C4: for every eligible request with an expired token, an
existing record, and a renewal returning a (non-empty) new token value,
`process_request` proceeds with no redirect, replaces the user's record
in one `save` with the new value and expiration `now +
AUTH0_ID_TOKEN_EXPIRY`, emits the renewal debug log (and no message, no
logout), and runs the strategy's `update_expiration` hook: a no-op for
the direct strategy, the cache write with the configured TTL for the
cached one. -/
theorem claim4_renewal_success (strat : Strategy) (s : Auth0Settings) (st : MwState)
    (now : Nat) (req : Request) (net : NetOutcome) (d t : String) (tok : IdToken)
    (hel : eligible s req = true)
    (hd : email_domain req.user.email = some d)
    (hmem : d ∈ s.AUTH0_ID_TOKEN_DOMAINS)
    (hexp : is_expired strat st now req = true)
    (htok : get_id_token st.tokens req.user.id = some tok)
    (hr : renew_id_token net = .ok (some t))
    (ht : t ≠ "") :
    (process_request strat s st now req net).outcome = .normal none ∧
    (process_request strat s st now req net).state.tokens =
      save_id_token st.tokens req.user.id ⟨t, now + s.AUTH0_ID_TOKEN_EXPIRY⟩ ∧
    get_id_token (process_request strat s st now req net).state.tokens req.user.id =
      some ⟨t, now + s.AUTH0_ID_TOKEN_EXPIRY⟩ ∧
    (process_request strat s st now req net).effects =
      ⟨[], false, [renewed_log req.user.id]⟩ ∧
    (strat = .direct → (process_request strat s st now req net).state.cache = st.cache) ∧
    (strat = .cached → (process_request strat s st now req net).state.cache =
      cache_set st.cache (cache_key req.user.id) true (now + s.AUTH0_ID_TOKEN_EXPIRY)) := by
  have hbe : (t == "") = false := by simp [ht]
  have hpr : process_request strat s st now req net =
      ⟨.normal none,
        update_expiration strat s
          (MwState.mk
            (save_id_token st.tokens req.user.id ⟨t, now + s.AUTH0_ID_TOKEN_EXPIRY⟩)
            st.cache)
          now req,
        ⟨[], false, [renewed_log req.user.id]⟩⟩ := by
    simp [process_request, hel, hd, hmem, hexp, htok, hr, hbe]
  rw [hpr]
  cases strat with
  | direct =>
    refine ⟨rfl, rfl, get_save_id_token _ _ _, rfl, fun _ => rfl, fun h => ?_⟩
    exact absurd h (by decide)
  | cached =>
    refine ⟨rfl, rfl, get_save_id_token _ _ _, rfl, fun h => ?_, fun _ => rfl⟩
    exact absurd h (by decide)

/-- Witness for C4: the example user with a stale record, renewal
delivering `{id_token: "newtok"}`, under the cached strategy (whose
`is_expired` is true here because a live cache entry is present). -/
theorem claim4_renewal_success_witness :
    (process_request .cached exampleSettings ⟨[("1", ⟨"tok", 40⟩)], [(cache_key "1", true, 100)]⟩
        50 exampleReq (.ok (.json (some "newtok")))).outcome = .normal none ∧
    (process_request .cached exampleSettings ⟨[("1", ⟨"tok", 40⟩)], [(cache_key "1", true, 100)]⟩
        50 exampleReq (.ok (.json (some "newtok")))).state.tokens =
      save_id_token [("1", ⟨"tok", 40⟩)] "1" ⟨"newtok", 950⟩ ∧
    get_id_token (process_request .cached exampleSettings
        ⟨[("1", ⟨"tok", 40⟩)], [(cache_key "1", true, 100)]⟩ 50 exampleReq
        (.ok (.json (some "newtok")))).state.tokens "1" = some ⟨"newtok", 950⟩ ∧
    (process_request .cached exampleSettings ⟨[("1", ⟨"tok", 40⟩)], [(cache_key "1", true, 100)]⟩
        50 exampleReq (.ok (.json (some "newtok")))).effects =
      ⟨[], false, [renewed_log "1"]⟩ ∧
    (Strategy.cached = Strategy.direct →
      (process_request .cached exampleSettings
        ⟨[("1", ⟨"tok", 40⟩)], [(cache_key "1", true, 100)]⟩ 50 exampleReq
        (.ok (.json (some "newtok")))).state.cache = [(cache_key "1", true, 100)]) ∧
    (Strategy.cached = Strategy.cached →
      (process_request .cached exampleSettings
        ⟨[("1", ⟨"tok", 40⟩)], [(cache_key "1", true, 100)]⟩ 50 exampleReq
        (.ok (.json (some "newtok")))).state.cache =
        cache_set [(cache_key "1", true, 100)] (cache_key "1") true 950) :=
  claim4_renewal_success .cached exampleSettings
    ⟨[("1", ⟨"tok", 40⟩)], [(cache_key "1", true, 100)]⟩ 50 exampleReq
    (.ok (.json (some "newtok"))) "example.com" "newtok" ⟨"tok", 40⟩ (by decide) (by decide)
    (by decide) (by decide) (by decide) rfl (by decide)

/-- Claim C6: for every eligible request whose oracle reports the token
expired but whose user has no `IdToken` record, `process_request` logs
the user out, surfaces the wrong-provider message (distinct from the
other two flash messages, and directing the user to the correct sign-in
provider), and redirects to the sign-in view, leaving the state
untouched. -/
theorem claim6_missing_record_logout (strat : Strategy) (s : Auth0Settings) (st : MwState)
    (now : Nat) (req : Request) (net : NetOutcome) (d : String)
    (hel : eligible s req = true)
    (hd : email_domain req.user.email = some d)
    (hmem : d ∈ s.AUTH0_ID_TOKEN_DOMAINS)
    (hexp : is_expired strat st now req = true)
    (hno : get_id_token st.tokens req.user.id = none) :
    process_request strat s st now req net =
      ⟨.normal (some s.AUTH0_SIGNIN_VIEW), st, ⟨[wrong_provider_message], true, []⟩⟩ ∧
    wrong_provider_message ≠ network_problem_message ∧
    wrong_provider_message ≠ expired_session_message ∧
    containsSeqB "Please log in with the Mozilla LDAP provider".toList
      wrong_provider_message.toList = true := by
  refine ⟨?_, by decide, by decide, by decide⟩
  simp [process_request, hel, hd, hmem, hexp, hno]

/-- Witness for C6: the example user with no record (direct strategy, so
`is_expired` is true by absence). -/
theorem claim6_missing_record_logout_witness :
    process_request .direct exampleSettings ⟨[], []⟩ 50 exampleReq (.ok .notJson) =
      ⟨.normal (some exampleSettings.AUTH0_SIGNIN_VIEW), ⟨[], []⟩,
        ⟨[wrong_provider_message], true, []⟩⟩ ∧
    wrong_provider_message ≠ network_problem_message ∧
    wrong_provider_message ≠ expired_session_message ∧
    containsSeqB "Please log in with the Mozilla LDAP provider".toList
      wrong_provider_message.toList = true :=
  claim6_missing_record_logout .direct exampleSettings ⟨[], []⟩ 50 exampleReq (.ok .notJson)
    "example.com" (by decide) (by decide) (by decide) (by decide) (by decide)

/-- Claim C7: a renewal response whose body does not parse as JSON makes
`renew_id_token` return `None` rather than raise, and `process_request`
then treats it exactly as a provider rejection: logout, the
expired-authentication-session message, and a redirect to the sign-in
view. -/
theorem claim7_malformed_body_rejection (strat : Strategy) (s : Auth0Settings) (st : MwState)
    (now : Nat) (req : Request) (d : String) (tok : IdToken)
    (hel : eligible s req = true)
    (hd : email_domain req.user.email = some d)
    (hmem : d ∈ s.AUTH0_ID_TOKEN_DOMAINS)
    (hexp : is_expired strat st now req = true)
    (htok : get_id_token st.tokens req.user.id = some tok) :
    renew_id_token (.ok .notJson) = .ok none ∧
    process_request strat s st now req (.ok .notJson) =
      ⟨.normal (some s.AUTH0_SIGNIN_VIEW), st, ⟨[expired_session_message], true, []⟩⟩ ∧
    containsSeqB "expired authentication session".toList
      expired_session_message.toList = true := by
  refine ⟨rfl, ?_, by decide⟩
  simp [process_request, hel, hd, hmem, hexp, htok, renew_id_token]

/-- Witness for C7: the example user with a stale record and an
unparseable (e.g. HTML 502) response body. -/
theorem claim7_malformed_body_rejection_witness :
    renew_id_token (.ok .notJson) = .ok none ∧
    process_request .direct exampleSettings ⟨[("1", ⟨"tok", 40⟩)], []⟩ 50 exampleReq
        (.ok .notJson) =
      ⟨.normal (some exampleSettings.AUTH0_SIGNIN_VIEW), ⟨[("1", ⟨"tok", 40⟩)], []⟩,
        ⟨[expired_session_message], true, []⟩⟩ ∧
    containsSeqB "expired authentication session".toList
      expired_session_message.toList = true :=
  claim7_malformed_body_rejection .direct exampleSettings ⟨[("1", ⟨"tok", 40⟩)], []⟩ 50
    exampleReq "example.com" ⟨"tok", 40⟩ (by decide) (by decide) (by decide) (by decide)
    (by decide)

/-- Claim C9: a request whose user's email domain is not in the
allow-list is a complete no-op: `process_request` returns `None`, the
store and cache are untouched, and there is no message, no logout, and
no log line — whatever the strategy, token state, or network outcome. -/
theorem claim9_exempt_domain_noop (strat : Strategy) (s : Auth0Settings) (st : MwState)
    (now : Nat) (req : Request) (net : NetOutcome) (d : String)
    (hd : email_domain req.user.email = some d)
    (hnot : d ∉ s.AUTH0_ID_TOKEN_DOMAINS) :
    process_request strat s st now req net = ⟨.normal none, st, no_effects⟩ := by
  have hc := contains_eq_false_of_not_mem hnot
  rcases Bool.eq_false_or_eq_true (eligible s req) with he | he
  · simp [process_request, he, hd, hc, hnot]
  · simp [process_request, he]

/-- Witness for C9: a user on `other.com` with a stale record is left
alone. -/
theorem claim9_exempt_domain_noop_witness :
    process_request .direct exampleSettings ⟨[("1", ⟨"tok", 40⟩)], []⟩ 50
        ⟨"GET", false, "/home", ⟨"1", true, "alice@other.com"⟩⟩ (.ok .notJson) =
      ⟨.normal none, ⟨[("1", ⟨"tok", 40⟩)], []⟩, no_effects⟩ :=
  claim9_exempt_domain_noop .direct exampleSettings ⟨[("1", ⟨"tok", 40⟩)], []⟩ 50
    ⟨"GET", false, "/home", ⟨"1", true, "alice@other.com"⟩⟩ (.ok .notJson) "other.com"
    (by decide) (by decide)

/-- Claim C10 (implicit behaviour confirmed): a request that passes the
first eligibility conditions (method not POST, not AJAX, active user,
non-empty email, path not a callback path) but whose user email contains
no `'@'` makes `process_request` raise `IndexError` while extracting the
domain (`email.lower().split('@', 1)[1]`), instead of returning normally
or redirecting. -/
theorem claim10_missing_at_raises (strat : Strategy) (s : Auth0Settings) (st : MwState)
    (now : Nat) (req : Request) (net : NetOutcome)
    (hm : req.method ≠ "POST") (ha : req.is_ajax = false)
    (hact : req.user.is_active = true) (hne : req.user.email ≠ "")
    (hp : req.path ∉ exception_paths s)
    (hat : '@' ∉ req.user.email.toList) :
    process_request strat s st now req net = ⟨.indexError, st, no_effects⟩ := by
  have hel : eligible s req = true := by
    simp [eligible, hm, ha, hact, hne, hp]
  simp [process_request, hel, email_domain_eq_none hat]

/-- Witness for C10: a GET by an active user whose email is `"bob"`. -/
theorem claim10_missing_at_raises_witness :
    process_request .direct exampleSettings ⟨[], []⟩ 50
        ⟨"GET", false, "/home", ⟨"1", true, "bob"⟩⟩ (.ok .notJson) =
      ⟨.indexError, ⟨[], []⟩, no_effects⟩ :=
  claim10_missing_at_raises .direct exampleSettings ⟨[], []⟩ 50
    ⟨"GET", false, "/home", ⟨"1", true, "bob"⟩⟩ (.ok .notJson) (by decide) (by decide)
    (by decide) (by decide) (by decide) (by decide)

end Standup
